import Mathlib

/-!
Shallow embedding of the Event Management System backend (Django REST
Framework application, `events` app).  The data model mirrors
`events/models.py`, the request-handling operations mirror
`events/views.py`, validation mirrors `events/serializers.py`, and the
permission checks mirror `events/permissions.py`.

Conventions of the embedding:
* Database rows are records in lists held in a `Store`.
* `request.user` is a `Caller` (anonymous or an authenticated `User`).
* Datetimes are modelled as integers (only their ordering matters).
* Every handler returns `(httpStatus, newStore)`; a handler that does not
  write returns the store unchanged.
* DRF maps `IsAuthenticated` failures for anonymous callers to 401,
  object-permission failures to 403, serializer `ValidationError` to 400,
  and `get_object_or_404` misses to 404; handlers below inline those
  mappings.
-/

structure User where
  id : Nat
deriving DecidableEq, Repr

inductive Caller where
  | anonymous : Caller
  | authenticated : User → Caller
deriving DecidableEq, Repr

/-- Event row: `events/models.py`, class `Event`.  `created_at`/`updated_at`
are bookkeeping timestamps with no logic attached and are omitted. -/
structure Event where
  id : Nat
  title : String
  description : String
  organizer : User
  location : String
  start_time : Int
  end_time : Int
  is_public : Bool
deriving DecidableEq, Repr

/-- RSVP row: `events/models.py`, class `RSVP`.  The status is stored as a
string (`CharField(max_length=20, choices=STATUS_CHOICES)`); Django does not
enforce `choices` on `.create()`/`get_or_create()`, so the field admits any
string at the store level. -/
structure RSVP where
  event_id : Nat
  user_id : Nat
  status : String
deriving DecidableEq, Repr

/-- Review row: `events/models.py`, class `Review`. -/
structure Review where
  id : Nat
  event_id : Nat
  user_id : Nat
  rating : Int
  comment : String
deriving DecidableEq, Repr

structure Store where
  events : List Event
  rsvps : List RSVP
  reviews : List Review
deriving DecidableEq, Repr

/-- Valid RSVP statuses: `RSVP.STATUS_CHOICES` in `events/models.py`. -/
def STATUS_CHOICES : List String := ["Going", "Maybe", "Not Going"]

/-- RSVPSerializer.validate_status (`events/serializers.py`): accepts exactly
the first components of `RSVP.STATUS_CHOICES`. -/
def validate_status (value : String) : Bool :=
  STATUS_CHOICES.contains value

/-- ReviewSerializer.validate_rating (`events/serializers.py`): accepts a
rating iff `1 <= value <= 5`. -/
def validate_rating (value : Int) : Bool :=
  1 ≤ value && value ≤ 5

/-- EventViewSet.get_queryset (`events/views.py`): anonymous callers see only
public events; authenticated callers see public events plus their own. -/
def get_queryset (s : Store) (c : Caller) : List Event :=
  match c with
  | Caller.anonymous => s.events.filter (fun e => e.is_public)
  | Caller.authenticated u => s.events.filter (fun e => e.is_public || e.organizer == u)

/-- DRF `get_object` for the event viewset: look the id up inside the
visibility-scoped queryset (`get_object_or_404(self.get_queryset(), pk=pk)`);
`none` is surfaced as HTTP 404. -/
def retrieveEvent (s : Store) (c : Caller) (eventId : Nat) : Option Event :=
  (get_queryset s c).find? (fun e => e.id == eventId)

/-- Safe HTTP methods, as in `rest_framework.permissions.SAFE_METHODS`. -/
def SAFE_METHODS : List String := ["GET", "HEAD", "OPTIONS"]

/-- IsOrganizerOrReadOnly.has_object_permission (`events/permissions.py`):
safe methods always pass; writes require `obj.organizer == request.user`. -/
def has_object_permission (method : String) (u : User) (obj : Event) : Bool :=
  SAFE_METHODS.contains method || obj.organizer == u

/-- Key predicate for the `unique_together = ['event', 'user']` RSVP lookup. -/
def rsvp_matches (eventId userId : Nat) (r : RSVP) : Bool :=
  r.event_id == eventId && r.user_id == userId

/-- EventViewSet.rsvp action body (`events/views.py`, after permission and
`get_object` succeed).  `RSVP.objects.get_or_create(event=event, user=user,
defaults={'status': request.data.get('status', 'Maybe')})`: when no row for
`(event, user)` exists, a row is created with the raw client-supplied status
(no serializer validation on this path), defaulting to `"Maybe"`; when a row
exists, `RSVPSerializer(rsvp, data=request.data, partial=True)` validates the
supplied status and updates the row in place (a partial update with no status
supplied changes nothing). -/
def rsvp_action (s : Store) (u : User) (ev : Event) (statusParam : Option String) : Nat × Store :=
  match s.rsvps.find? (rsvp_matches ev.id u.id) with
  | none =>
      let st := statusParam.getD "Maybe"
      (201, { s with rsvps := s.rsvps ++ [{ event_id := ev.id, user_id := u.id, status := st }] })
  | some _ =>
      match statusParam with
      | none => (200, s)
      | some st =>
          if validate_status st then
            let updated := s.rsvps.map (fun r => if rsvp_matches ev.id u.id r then { r with status := st } else r)
            (200, { s with rsvps := updated })
          else (400, s)

/-- Full /events/{id}/rsvp endpoint: `permission_classes=[IsAuthenticated]`
rejects anonymous callers with 401 before the handler runs; then
`self.get_object()` resolves the event through the scoped queryset (404 on
miss); then the action body runs. -/
def rsvp_endpoint (s : Store) (c : Caller) (eventId : Nat) (statusParam : Option String) : Nat × Store :=
  match c with
  | Caller.anonymous => (401, s)
  | Caller.authenticated u =>
      match retrieveEvent s c eventId with
      | none => (404, s)
      | some ev => rsvp_action s u ev statusParam

/-- EventViewSet.reviews action, POST branch (`events/views.py`): if the
caller already has a review on the event, respond 400 ("You have already
reviewed this event."); otherwise run `ReviewSerializer.is_valid`
(rating bounds) and on success save a review with `user`/`event` forced from
the context. -/
def reviews_post (s : Store) (u : User) (ev : Event) (rating : Int) (comment : String) (newId : Nat) : Nat × Store :=
  if s.reviews.any (fun r => r.event_id == ev.id && r.user_id == u.id) then
    (400, s)
  else if validate_rating rating then
    (201, { s with reviews := s.reviews ++ [{ id := newId, event_id := ev.id, user_id := u.id, rating := rating, comment := comment }] })
  else
    (400, s)

/-- ReviewViewSet create path (`events/views.py`): DRF runs
`serializer.is_valid(raise_exception=True)` (rating bounds → 400) before
`perform_create`, which resolves the event id from the request body with
`get_object_or_404` (404 on miss), raises `ValidationError` (→ 400) when the
caller already reviewed the event, and otherwise saves with `user` forced to
the caller. -/
def reviewviewset_create (s : Store) (u : User) (eventParam : Option Nat) (rating : Int) (comment : String) (newId : Nat) : Nat × Store :=
  if validate_rating rating then
    match eventParam.bind (fun eid => s.events.find? (fun e => e.id == eid)) with
    | none => (404, s)
    | some ev =>
        if s.reviews.any (fun r => r.event_id == ev.id && r.user_id == u.id) then
          (400, s)
        else
          (201, { s with reviews := s.reviews ++ [{ id := newId, event_id := ev.id, user_id := u.id, rating := rating, comment := comment }] })
  else
    (400, s)

/-- ReviewViewSet.get_queryset (`events/views.py`): all reviews, optionally
filtered by the `event` query parameter; the caller's identity is never
consulted (the `c` argument is unused, mirroring that `request.user` is not
read), and no event-visibility filter is applied. -/
def review_list (s : Store) (c : Caller) (eventParam : Option Nat) : List Review :=
  match eventParam with
  | some eid => s.reviews.filter (fun r => r.event_id == eid)
  | none => s.reviews

/-- Python `data.get(key) or (instance.field if instance else None)`:
datetime objects are always truthy, so the client value wins when present. -/
def effective (dataVal instVal : Option Int) : Option Int :=
  match dataVal with
  | some v => some v
  | none => instVal

/-- EventCreateUpdateSerializer.validate (`events/serializers.py`): compute
the effective start and end (client value, else the stored instance value),
and reject when both are present and `end <= start`. -/
def event_validate (dataStart dataEnd instStart instEnd : Option Int) : Bool :=
  match effective dataStart instStart, effective dataEnd instEnd with
  | some st, some en => decide (st < en)
  | _, _ => true

/-- Writable fields of EventCreateUpdateSerializer (`Meta.fields`): title,
description, location, start_time, end_time, is_public — the organizer is
not among them. -/
structure EventInput where
  title : String
  description : String
  location : String
  start_time : Int
  end_time : Int
  is_public : Bool
deriving DecidableEq, Repr

/-- Partial-update payload over the same writable fields. -/
structure EventPatch where
  title : Option String := none
  description : Option String := none
  location : Option String := none
  start_time : Option Int := none
  end_time : Option Int := none
  is_public : Option Bool := none
deriving DecidableEq, Repr

/-- Apply a validated partial update to a stored event: only the serializer's
writable fields can change (the organizer is not one of them). -/
def apply_patch (p : EventPatch) (e : Event) : Event :=
  { e with
    title := p.title.getD e.title
    description := p.description.getD e.description
    location := p.location.getD e.location
    start_time := p.start_time.getD e.start_time
    end_time := p.end_time.getD e.end_time
    is_public := p.is_public.getD e.is_public }

/-- Event create: `IsAuthenticatedOrReadOnly` rejects anonymous POST with
401; the serializer validates the times; `perform_create` saves with
`organizer=self.request.user`.  `clientOrganizer` models an organizer value
in the raw request body: the serializer drops it (not in `Meta.fields`), so
it is never read. -/
def create_event (s : Store) (c : Caller) (inp : EventInput) (clientOrganizer : Option User) (newId : Nat) : Nat × Store :=
  match c with
  | Caller.anonymous => (401, s)
  | Caller.authenticated u =>
      if event_validate (some inp.start_time) (some inp.end_time) none none then
        let newEvent : Event := { id := newId, title := inp.title, description := inp.description, organizer := u, location := inp.location, start_time := inp.start_time, end_time := inp.end_time, is_public := inp.is_public }
        (201, { s with events := s.events ++ [newEvent] })
      else
        (400, s)

/-- Event update (PATCH): anonymous → 401; `get_object` resolves through the
scoped queryset (404 on miss) and checks `IsOrganizerOrReadOnly` (403); the
serializer validates the merged effective times (400); on success the
writable fields are saved. -/
def update_event (s : Store) (c : Caller) (eventId : Nat) (p : EventPatch) : Nat × Store :=
  match c with
  | Caller.anonymous => (401, s)
  | Caller.authenticated u =>
      match retrieveEvent s c eventId with
      | none => (404, s)
      | some ev =>
          if has_object_permission "PATCH" u ev then
            if event_validate p.start_time p.end_time (some ev.start_time) (some ev.end_time) then
              let updated := s.events.map (fun e => if e.id == eventId then apply_patch p e else e)
              (200, { s with events := updated })
            else (400, s)
          else (403, s)

/-- Event delete: anonymous → 401; `get_object` through the scoped queryset
(404 on miss) and `IsOrganizerOrReadOnly` (403 for a non-organizer); on
success the row is removed. -/
def destroy_event (s : Store) (c : Caller) (eventId : Nat) : Nat × Store :=
  match c with
  | Caller.anonymous => (401, s)
  | Caller.authenticated u =>
      match retrieveEvent s c eventId with
      | none => (404, s)
      | some ev =>
          if has_object_permission "DELETE" u ev then
            (204, { s with events := s.events.filter (fun e => !(e.id == eventId)) })
          else (403, s)

/-- Event.rsvp_count property (`events/models.py`):
`self.rsvps.filter(status='Going').count()`. -/
def rsvp_count (s : Store) (eventId : Nat) : Nat :=
  (s.rsvps.filter (fun r => r.event_id == eventId && r.status == "Going")).length

/-- Python `round` at integer precision: round half to even, on exact
rational values. -/
def roundHalfEven (q : ℚ) : ℤ :=
  let f : ℤ := ⌊q⌋
  let frac : ℚ := q - (f : ℚ)
  if frac < 1/2 then f
  else if 1/2 < frac then f + 1
  else if f % 2 = 0 then f else f + 1

/-- Python `round(x, 1)`: round `10 * x` to an integer, divide by 10. -/
def round1 (q : ℚ) : ℚ :=
  (roundHalfEven (q * 10) : ℚ) / 10

/-- Event.average_rating property (`events/models.py`): `None` when the event
has no reviews, else `round(sum(r.rating for r in reviews) / reviews.count(), 1)`. -/
def average_rating (s : Store) (eventId : Nat) : Option ℚ :=
  let reviews := s.reviews.filter (fun r => r.event_id == eventId)
  if reviews.isEmpty then none
  else some (round1 (((reviews.map (fun r => (r.rating : ℚ))).sum) / (reviews.length : ℚ)))

/-! Concrete data used by witnesses and counterexamples. -/

def user1 : User := { id := 1 }

def user2 : User := { id := 2 }

def pubEvent : Event :=
  { id := 1, title := "meetup", description := "d", organizer := user1,
    location := "here", start_time := 0, end_time := 10, is_public := true }

def privEvent : Event :=
  { id := 2, title := "secret", description := "d", organizer := user1,
    location := "here", start_time := 0, end_time := 10, is_public := false }

/-- Store with one public and one private event and no RSVPs/reviews. -/
def baseStore : Store := { events := [pubEvent, privEvent], rsvps := [], reviews := [] }

/-- Store where event 1 has reviews with ratings 4 and 5. -/
def store45 : Store :=
  { events := [pubEvent], rsvps := [],
    reviews := [{ id := 1, event_id := 1, user_id := 1, rating := 4, comment := "" },
                { id := 2, event_id := 1, user_id := 2, rating := 5, comment := "" }] }

/-- Store where event 1 has reviews with ratings 3, 3 and 4. -/
def store334 : Store :=
  { events := [pubEvent], rsvps := [],
    reviews := [{ id := 1, event_id := 1, user_id := 1, rating := 3, comment := "" },
                { id := 2, event_id := 1, user_id := 2, rating := 3, comment := "" },
                { id := 3, event_id := 1, user_id := 3, rating := 4, comment := "" }] }

/-- Store where user 1 already reviewed event 1, and one review of the
private event 2 exists. -/
def dupStore : Store :=
  { events := [pubEvent, privEvent], rsvps := [],
    reviews := [{ id := 1, event_id := 1, user_id := 1, rating := 4, comment := "nice" },
                { id := 2, event_id := 2, user_id := 1, rating := 5, comment := "private" }] }

/-! Helper lemmas shared by several claim theorems. -/

lemma mem_events_of_mem_get_queryset (s : Store) (c : Caller) (e : Event)
    (h : e ∈ get_queryset s c) : e ∈ s.events := by
  cases c <;> exact (List.mem_filter.mp h).1

lemma not_mem_get_queryset_of_private (s : Store) (c : Caller) (e : Event)
    (hpriv : e.is_public = false) (hne : c ≠ Caller.authenticated e.organizer) :
    e ∉ get_queryset s c := by
  intro hmem
  cases c with
  | anonymous =>
      have h2 := (List.mem_filter.mp hmem).2
      rw [hpriv] at h2
      exact Bool.false_ne_true h2
  | authenticated u =>
      have h2 := (List.mem_filter.mp hmem).2
      rw [hpriv] at h2
      simp only [Bool.false_or, beq_iff_eq] at h2
      exact hne (by rw [h2])

lemma retrieveEvent_eq_none_of_private (s : Store) (c : Caller) (e : Event)
    (hpriv : e.is_public = false) (hne : c ≠ Caller.authenticated e.organizer)
    (huniq : ∀ e' ∈ s.events, e'.id = e.id → e' = e) :
    retrieveEvent s c e.id = none := by
  rw [retrieveEvent, List.find?_eq_none]
  intro x hx
  simp only [beq_iff_eq]
  intro hid
  have hxev : x ∈ s.events := mem_events_of_mem_get_queryset s c x hx
  have hxe : x = e := huniq x hxev hid
  subst hxe
  exact not_mem_get_queryset_of_private s c x hpriv hne hx

/-- C1.  ScopeEvents: an anonymous caller's scope is exactly the public
events; an authenticated caller's scope is exactly the public events plus
their own; a private event of another organizer is absent from the scope,
and (when its id is unambiguous in the store) retrieving it by id through
the scoped queryset yields `none`, surfaced as NotFound. -/
theorem scope_events_spec (s : Store) (e : Event) :
    (e ∈ get_queryset s Caller.anonymous ↔ e ∈ s.events ∧ e.is_public = true) ∧
    (∀ u : User, e ∈ get_queryset s (Caller.authenticated u) ↔
      e ∈ s.events ∧ (e.is_public = true ∨ e.organizer = u)) ∧
    (∀ c : Caller, e.is_public = false → c ≠ Caller.authenticated e.organizer →
      e ∉ get_queryset s c ∧
      ((∀ e' ∈ s.events, e'.id = e.id → e' = e) → retrieveEvent s c e.id = none)) := by
  refine ⟨?_, ?_, ?_⟩
  · simp [get_queryset, List.mem_filter]
  · intro u
    simp [get_queryset, List.mem_filter]
  · intro c hpriv hne
    exact ⟨not_mem_get_queryset_of_private s c e hpriv hne,
      fun huniq => retrieveEvent_eq_none_of_private s c e hpriv hne huniq⟩

/-- C1 witness: user 2 cannot see or retrieve the private event of user 1,
and the scope characterizations hold on the concrete base store. -/
theorem scope_events_spec_witness :
    privEvent ∉ get_queryset baseStore (Caller.authenticated user2) ∧
    retrieveEvent baseStore (Caller.authenticated user2) privEvent.id = none := by
  have h := (scope_events_spec baseStore privEvent).2.2 (Caller.authenticated user2)
    (by decide) (by decide)
  exact ⟨h.1, h.2 (by decide)⟩

/-- C2 counterexample: in `dupStore` user 1 already reviewed event 1; a second
create attempt through either endpoint yields HTTP 400 — the very same status
an out-of-range rating (a validation failure) yields — and not 409, so the
duplicate outcome is not distinct from a validation failure. -/
theorem duplicate_review_conflict_counterexample :
    (reviews_post dupStore user1 pubEvent 5 "" 3).1 = 400 ∧
    (reviewviewset_create dupStore user1 (some 1) 5 "" 3).1 = 400 ∧
    (reviews_post baseStore user1 pubEvent 99 "" 3).1 = 400 ∧
    (400 : Nat) ≠ 409 := by
  refine ⟨by decide, by decide, by decide, by decide⟩

/-- C2 amended: creating a second Review for the same (event, user) pair
fails and leaves the store (hence the first Review) unchanged, but the
failure is reported as HTTP 400 — the same status as a validation failure —
not as a distinct 409 Conflict. -/
theorem duplicate_review_rejected_400 (s : Store) (u : User) (ev : Event)
    (rating : Int) (cm : String) (nid : Nat)
    (hdup : s.reviews.any (fun r => r.event_id == ev.id && r.user_id == u.id) = true) :
    reviews_post s u ev rating cm nid = (400, s) ∧
    (s.events.find? (fun e => e.id == ev.id) = some ev →
      reviewviewset_create s u (some ev.id) rating cm nid = (400, s)) := by
  constructor
  · simp [reviews_post, hdup]
  · intro hfind
    by_cases hv : validate_rating rating = true
    · simp [reviewviewset_create, hv, hfind, hdup]
    · simp [reviewviewset_create, hv]

/-- C2 witness: the amended theorem evaluated on the concrete duplicate
store. -/
theorem duplicate_review_rejected_400_witness :
    reviews_post dupStore user1 pubEvent 4 "again" 3 = (400, dupStore) :=
  (duplicate_review_rejected_400 dupStore user1 pubEvent 4 "again" 3 (by decide)).1

lemma filter_map_update {α : Type} (p : α → Bool) (f : α → α) (l : List α)
    (hf : ∀ a, p (f a) = p a) :
    (l.map (fun a => if p a then f a else a)).filter p = (l.filter p).map f := by
  induction l with
  | nil => rfl
  | cons x xs ih =>
      by_cases hx : p x = true
      · simp [List.filter_cons, hx, hf, ih]
      · simp [List.filter_cons, hx, ih]

lemma rsvp_action_create (s : Store) (u : User) (ev : Event) (stp : Option String)
    (hfind : s.rsvps.find? (rsvp_matches ev.id u.id) = none) :
    (rsvp_action s u ev stp).2.rsvps
      = s.rsvps ++ [{ event_id := ev.id, user_id := u.id, status := stp.getD "Maybe" }] := by
  simp [rsvp_action, hfind]

lemma rsvp_action_update (s : Store) (u : User) (ev : Event) (st : String) (r : RSVP)
    (hr : s.rsvps.find? (rsvp_matches ev.id u.id) = some r)
    (hval : validate_status st = true) :
    (rsvp_action s u ev (some st)).2.rsvps
      = s.rsvps.map (fun x => if rsvp_matches ev.id u.id x then { x with status := st } else x) := by
  simp [rsvp_action, hr, hval]

/-- C3.  The RSVP action is an upsert keyed by (event, caller): with no
existing row it creates one — with status `"Maybe"` when none is supplied,
else the supplied status; with an existing row it updates the status in
place without changing the number of rows; and upserting status `"Going"`
twice starting from no row leaves exactly one row for the pair, with status
`"Going"`. -/
theorem rsvp_upsert_spec (s : Store) (u : User) (ev : Event)
    (hnone : s.rsvps.filter (rsvp_matches ev.id u.id) = []) :
    ((rsvp_action s u ev none).2.rsvps
        = s.rsvps ++ [{ event_id := ev.id, user_id := u.id, status := "Maybe" }]) ∧
    (∀ st : String, (rsvp_action s u ev (some st)).2.rsvps
        = s.rsvps ++ [{ event_id := ev.id, user_id := u.id, status := st }]) ∧
    ((rsvp_action (rsvp_action s u ev (some "Going")).2 u ev (some "Going")).2.rsvps.filter
        (rsvp_matches ev.id u.id)
        = [{ event_id := ev.id, user_id := u.id, status := "Going" }]) ∧
    (∀ (s' : Store) (st : String), (s'.rsvps.find? (rsvp_matches ev.id u.id)).isSome →
        validate_status st = true →
        (rsvp_action s' u ev (some st)).2.rsvps.length = s'.rsvps.length) := by
  have hfind : s.rsvps.find? (rsvp_matches ev.id u.id) = none :=
    List.find?_eq_none.mpr (List.filter_eq_nil_iff.mp hnone)
  have hrow : rsvp_matches ev.id u.id { event_id := ev.id, user_id := u.id, status := "Going" } = true := by
    simp [rsvp_matches]
  refine ⟨?_, ?_, ?_, ?_⟩
  · simp [rsvp_action, hfind]
  · intro st
    simp [rsvp_action, hfind]
  · have h1 : (rsvp_action s u ev (some "Going")).2.rsvps
        = s.rsvps ++ [{ event_id := ev.id, user_id := u.id, status := "Going" }] := by
      simpa using rsvp_action_create s u ev (some "Going") hfind
    have hfind2 : ((rsvp_action s u ev (some "Going")).2.rsvps).find? (rsvp_matches ev.id u.id)
        = some { event_id := ev.id, user_id := u.id, status := "Going" } := by
      rw [h1, List.find?_append, hfind]
      simp [List.find?, hrow]
    rw [rsvp_action_update _ u ev "Going" _ hfind2 (by decide)]
    rw [h1]
    rw [filter_map_update (rsvp_matches ev.id u.id) (fun r => { r with status := "Going" })
      _ (fun a => rfl)]
    rw [List.filter_append, hnone]
    simp [List.filter, hrow]
  · intro s' st hsome hval
    obtain ⟨r, hr⟩ := Option.isSome_iff_exists.mp hsome
    simp [rsvp_action, hr, hval]

/-- C3 witness: the double `"Going"` upsert on the concrete base store ends
with exactly one row for (event 1, user 2), with status `"Going"`. -/
theorem rsvp_upsert_spec_witness :
    (rsvp_action (rsvp_action baseStore user2 pubEvent (some "Going")).2 user2 pubEvent
        (some "Going")).2.rsvps.filter (rsvp_matches pubEvent.id user2.id)
      = [{ event_id := pubEvent.id, user_id := user2.id, status := "Going" }] :=
  (rsvp_upsert_spec baseStore user2 pubEvent (by decide)).2.2.1

/-- C4.  End ≤ start is rejected with 400 and no write, on create and on
update; on update the comparison is against the merged effective times:
a supplied value, else the stored instance value (`Option.getD`). -/
theorem event_time_validation_spec :
    (∀ (s : Store) (u : User) (inp : EventInput) (co : Option User) (nid : Nat),
      inp.end_time ≤ inp.start_time →
      create_event s (Caller.authenticated u) inp co nid = (400, s)) ∧
    (∀ (s : Store) (u : User) (eid : Nat) (p : EventPatch) (ev : Event),
      retrieveEvent s (Caller.authenticated u) eid = some ev → ev.organizer = u →
      p.end_time.getD ev.end_time ≤ p.start_time.getD ev.start_time →
      update_event s (Caller.authenticated u) eid p = (400, s)) := by
  constructor
  · intro s u inp co nid hle
    have hv : event_validate (some inp.start_time) (some inp.end_time) none none = false := by
      simp [event_validate, effective]
      omega
    simp [create_event, hv]
  · intro s u eid p ev hret horg hle
    have hperm : has_object_permission "PATCH" u ev = true := by
      simp [has_object_permission, horg]
    have hv : event_validate p.start_time p.end_time (some ev.start_time) (some ev.end_time)
        = false := by
      cases hps : p.start_time <;> cases hpe : p.end_time <;>
        rw [hps, hpe] at hle <;>
        simp [event_validate, effective, Option.getD] at hle ⊢ <;> omega
    simp [update_event, hret, hperm, hv]

/-- C4 witness: patching only `end_time` to −5 on event 1 (stored start 0,
end 10) is compared against the stored start and rejected with 400, store
unchanged. -/
theorem event_time_validation_spec_witness :
    update_event baseStore (Caller.authenticated user1) 1 { end_time := some (-5) }
      = (400, baseStore) :=
  event_time_validation_spec.2 baseStore user1 1 { end_time := some (-5) } pubEvent
    (by decide) rfl (by decide)

/-- C5.  Denied writes distinguish their reasons: an anonymous caller hitting
the RSVP endpoint gets 401 (NotAuthenticated) with no write, and an
authenticated non-organizer deleting a visible event gets 403 (NotOwner)
with the event still present in the store. -/
theorem deny_reason_spec :
    (∀ (s : Store) (eid : Nat) (stp : Option String),
      rsvp_endpoint s Caller.anonymous eid stp = (401, s)) ∧
    (∀ (s : Store) (u : User) (eid : Nat) (ev : Event),
      retrieveEvent s (Caller.authenticated u) eid = some ev → ev.organizer ≠ u →
      destroy_event s (Caller.authenticated u) eid = (403, s) ∧ ev ∈ s.events) := by
  constructor
  · intro s eid stp
    rfl
  · intro s u eid ev hret hne
    have hperm : has_object_permission "DELETE" u ev = false := by
      simp [has_object_permission, SAFE_METHODS, hne]
    refine ⟨by simp [destroy_event, hret, hperm], ?_⟩
    exact mem_events_of_mem_get_queryset s _ ev (List.mem_of_find?_eq_some hret)

/-- C5 witness: anonymous RSVP on event 1 yields 401; user 2 deleting
user 1's public event 1 yields 403 and the event is still stored. -/
theorem deny_reason_spec_witness :
    rsvp_endpoint baseStore Caller.anonymous 1 (some "Going") = (401, baseStore) ∧
    destroy_event baseStore (Caller.authenticated user2) 1 = (403, baseStore) ∧
    pubEvent ∈ baseStore.events :=
  ⟨deny_reason_spec.1 baseStore 1 (some "Going"),
    deny_reason_spec.2 baseStore user2 1 pubEvent (by decide) (by decide)⟩

lemma map_organizer_invariant (l : List Event) (g : Event → Event)
    (hg : ∀ e, (g e).organizer = e.organizer) :
    (l.map g).map (fun e => e.organizer) = l.map (fun e => e.organizer) := by
  induction l with
  | nil => rfl
  | cons x xs ih => simp [hg, ih]

/-- C6.  The organizer is forced server-side and immutable: event creation is
independent of any client-supplied organizer value, every event present after
a create is either pre-existing or has the caller as organizer, and an update
never changes any stored event's organizer. -/
theorem organizer_forced_and_immutable_spec :
    (∀ (s : Store) (c : Caller) (inp : EventInput) (co co' : Option User) (nid : Nat),
      create_event s c inp co nid = create_event s c inp co' nid) ∧
    (∀ (s : Store) (u : User) (inp : EventInput) (co : Option User) (nid : Nat) (e : Event),
      e ∈ (create_event s (Caller.authenticated u) inp co nid).2.events →
      e ∈ s.events ∨ e.organizer = u) ∧
    (∀ (s : Store) (c : Caller) (eid : Nat) (p : EventPatch),
      (update_event s c eid p).2.events.map (fun e => e.organizer)
        = s.events.map (fun e => e.organizer)) := by
  refine ⟨fun s c inp co co' nid => rfl, ?_, ?_⟩
  · intro s u inp co nid e he
    by_cases hv : event_validate (some inp.start_time) (some inp.end_time) none none = true
    · simp [create_event, hv] at he
      rcases he with h | h
      · exact Or.inl h
      · subst h
        exact Or.inr rfl
    · simp [create_event, hv] at he
      exact Or.inl he
  · intro s c eid p
    cases c with
    | anonymous => rfl
    | authenticated u =>
        cases hret : retrieveEvent s (Caller.authenticated u) eid with
        | none => simp [update_event, hret]
        | some ev =>
            by_cases hperm : has_object_permission "PATCH" u ev = true
            · by_cases hv : event_validate p.start_time p.end_time (some ev.start_time)
                  (some ev.end_time) = true
              · simp only [update_event, hret, hperm, hv, if_true]
                exact map_organizer_invariant s.events _
                  (fun e => by by_cases h : e.id == eid <;> simp [h, apply_patch])
              · simp [update_event, hret, hperm, hv]
            · simp [update_event, hret, hperm]

def exInput : EventInput :=
  { title := "t", description := "d", location := "l",
    start_time := 0, end_time := 5, is_public := true }

def exNewEvent : Event :=
  { id := 3, title := "t", description := "d", organizer := user2, location := "l",
    start_time := 0, end_time := 5, is_public := true }

/-- C6 witness: the event stored by user 2's create (with a client-supplied
organizer value of user 1 in the body) is new and carries organizer user 2. -/
theorem organizer_forced_and_immutable_spec_witness :
    exNewEvent ∈ baseStore.events ∨ exNewEvent.organizer = user2 :=
  organizer_forced_and_immutable_spec.2.1 baseStore user2 exInput (some user1) 3 exNewEvent
    (by decide)

/-- C7 (violated by the code).  The RSVP create path feeds the raw
client-supplied status into `get_or_create(defaults=...)` without running
`RSVPSerializer.validate_status`: posting status `"Invalid"` (not among
`STATUS_CHOICES`, rejected by the validator) through the full RSVP endpoint
with no pre-existing row stores an RSVP whose status is `"Invalid"` and
answers 201. -/
theorem rsvp_status_unvalidated_on_create :
    validate_status "Invalid" = false ∧
    "Invalid" ∉ STATUS_CHOICES ∧
    (rsvp_endpoint baseStore (Caller.authenticated user1) 1 (some "Invalid")).2.rsvps
      = [{ event_id := 1, user_id := 1, status := "Invalid" }] ∧
    (rsvp_endpoint baseStore (Caller.authenticated user1) 1 (some "Invalid")).1 = 201 := by
  refine ⟨by decide, by decide, by decide, by decide⟩

/-- C8.  Aggregates: `rsvp_count` counts exactly the RSVP rows of the event
with status `"Going"`; `average_rating` is absent precisely when the event
has no reviews and otherwise is the review mean rounded to one decimal;
ratings [4, 5] give 4.5, ratings [3, 3, 4] give 3.3, and an event with no
RSVPs and no reviews gives count 0 and absent rating. -/
theorem aggregates_spec :
    (∀ (s : Store) (eid : Nat),
      rsvp_count s eid = s.rsvps.countP (fun r => r.event_id == eid && r.status == "Going")) ∧
    (∀ (s : Store) (eid : Nat),
      (average_rating s eid = none ↔ s.reviews.filter (fun r => r.event_id == eid) = [])) ∧
    (∀ (s : Store) (eid : Nat), s.reviews.filter (fun r => r.event_id == eid) ≠ [] →
      average_rating s eid = some (round1
        ((((s.reviews.filter (fun r => r.event_id == eid)).map (fun r => (r.rating : ℚ))).sum)
          / ((s.reviews.filter (fun r => r.event_id == eid)).length : ℚ)))) ∧
    average_rating store45 1 = some (9 / 2) ∧
    average_rating store334 1 = some (33 / 10) ∧
    average_rating baseStore 1 = none ∧
    rsvp_count baseStore 1 = 0 := by
  refine ⟨?_, ?_, ?_, ?_, ?_, by decide, by decide⟩
  · intro s eid
    simp [rsvp_count, List.countP_eq_length_filter]
  · intro s eid
    by_cases h : s.reviews.filter (fun r => r.event_id == eid) = []
    · simp [average_rating, h]
    · simp [average_rating, h, List.isEmpty_iff]
  · intro s eid h
    simp [average_rating, h, List.isEmpty_iff]
  · show average_rating store45 1 = some (9 / 2)
    simp only [average_rating, store45, List.filter, List.isEmpty]
    norm_num [round1, roundHalfEven]
  · show average_rating store334 1 = some (33 / 10)
    simp only [average_rating, store334, List.filter, List.isEmpty]
    norm_num [round1, roundHalfEven]

/-- C8 witness: the general mean-of-reviews characterization applied to the
concrete store whose event 1 carries ratings 4 and 5. -/
theorem aggregates_spec_witness :
    average_rating store45 1 = some (round1
      ((((store45.reviews.filter (fun r => r.event_id == 1)).map
          (fun r => (r.rating : ℚ))).sum)
        / ((store45.reviews.filter (fun r => r.event_id == 1)).length : ℚ))) :=
  aggregates_spec.2.2.1 store45 1 (by decide)

/-- C9.  A review create with a rating outside [1, 5] is rejected with 400 on
both review-creating endpoints and the store is unchanged: no review row is
created or modified by the failed request. -/
theorem invalid_rating_rejected_spec (s : Store) (u : User) (ev : Event)
    (rating : Int) (cm : String) (nid : Nat) (p : Option Nat)
    (h : rating < 1 ∨ 5 < rating) :
    reviews_post s u ev rating cm nid = (400, s) ∧
    reviewviewset_create s u p rating cm nid = (400, s) := by
  have hv : validate_rating rating = false := by
    rcases h with h | h <;> simp [validate_rating] <;> omega
  constructor
  · by_cases hd : s.reviews.any (fun r => r.event_id == ev.id && r.user_id == u.id) = true
    · simp [reviews_post, hd]
    · simp [reviews_post, hd, hv]
  · simp [reviewviewset_create, hv]

/-- C9 witness: rating 6 by a fresh reviewer is rejected with 400 on both
endpoints and the base store is untouched. -/
theorem invalid_rating_rejected_spec_witness :
    reviews_post baseStore user1 pubEvent 6 "" 3 = (400, baseStore) ∧
    reviewviewset_create baseStore user1 (some 1) 6 "" 3 = (400, baseStore) :=
  invalid_rating_rejected_spec baseStore user1 pubEvent 6 "" 3 (some 1)
    (Or.inr (by decide))

/-- C10.  ReviewViewSet's listing never reads the caller: any two callers
(anonymous included) receive the same list, every stored review is listed
under its event id, and in particular a review of a private event is listed
for a caller from whose event scope that event is absent. -/
theorem review_list_caller_independent_spec :
    (∀ (s : Store) (c c' : Caller) (p : Option Nat),
      review_list s c p = review_list s c' p) ∧
    (∀ (s : Store) (c : Caller) (r : Review), r ∈ s.reviews →
      r ∈ review_list s c (some r.event_id)) ∧
    (∀ (s : Store) (c : Caller) (e : Event) (r : Review),
      e.is_public = false → c ≠ Caller.authenticated e.organizer →
      r ∈ s.reviews → r.event_id = e.id →
      e ∉ get_queryset s c ∧ r ∈ review_list s c (some e.id)) := by
  refine ⟨fun s c c' p => rfl, ?_, ?_⟩
  · intro s c r hr
    simp [review_list, List.mem_filter, hr]
  · intro s c e r hpriv hne hr hid
    refine ⟨not_mem_get_queryset_of_private s c e hpriv hne, ?_⟩
    simp [review_list, List.mem_filter, hr, hid]

/-- C10 witness: the private event 2 is outside the anonymous caller's scope,
yet its review is returned by the standalone review listing to that caller. -/
theorem review_list_caller_independent_spec_witness :
    privEvent ∉ get_queryset dupStore Caller.anonymous ∧
    ({ id := 2, event_id := 2, user_id := 1, rating := 5, comment := "private" } : Review)
      ∈ review_list dupStore Caller.anonymous (some 2) :=
  review_list_caller_independent_spec.2.2 dupStore Caller.anonymous privEvent
    { id := 2, event_id := 2, user_id := 1, rating := 5, comment := "private" }
    (by decide) (by decide) (by decide) (by decide)
